import Mathlib

/-!
Verification development for the IdeaFactory repository (Telegram idea-capture
bot).  The TypeScript sources are shallowly embedded: JS strings are modelled
as lists of characters (`Str`), handlers become pure functions from a
per-user `UserState` and an environment `Env` (abstracting the external
Supabase store, the Telegram transport and the AI backends) to a new state
plus a trace of observable effects, and the AI provider fallback chain
becomes a fold over a list of providers returning `Except` values.
-/

namespace IdeaFactory

/-! ### JS string model: a JS string is modelled as a list of characters -/

abbrev Str := List Char

/-- Coerce a Lean string literal to the character-list model. -/
def str (s : String) : Str := s.toList

/-- Model of JS `String.prototype.startsWith`. -/
def strStarts (s p : Str) : Bool := s.take p.length == p

/-- Model of JS `String.prototype.trim` (strip whitespace at both ends). -/
def strTrim (s : Str) : Str :=
  ((s.dropWhile Char.isWhitespace).reverse.dropWhile Char.isWhitespace).reverse

/-- Decimal digits of a natural number, fuel-recursive so that it reduces by
evaluation (`fuel` must exceed `n`; `natRepr` supplies `n + 1`). -/
def natReprAux : Nat → Nat → List Char
  | 0, _ => []
  | fuel + 1, n =>
    if n < 10 then [Nat.digitChar n]
    else natReprAux fuel (n / 10) ++ [Nat.digitChar (n % 10)]

/-- Model of JS number-to-string interpolation for a non-negative integer. -/
def natRepr (n : Nat) : Str := natReprAux (n + 1) n

/-- Model of JS number-to-string interpolation for an integer. -/
def intRepr (i : Int) : Str :=
  if i < 0 then '-' :: natRepr i.natAbs else natRepr i.toNat

/-- Numeric value of a list of decimal digit characters. -/
def digitsVal (s : Str) : Nat :=
  s.foldl (fun a c => a * 10 + (c.toNat - 48)) 0

/-- Longest decimal-digit head of a string, as a number; `none` when the
string does not start with a digit. -/
def parseNatHead (s : Str) : Option Nat :=
  let d := s.takeWhile Char.isDigit
  if d = [] then none else some (digitsVal d)

/-- Model of JS `parseInt` on the inputs the bot produces (an optional sign
followed by decimal digits; `none` models `NaN`). -/
def jsParseInt (s : Str) : Option Int :=
  if strStarts s (str "-") then (parseNatHead (s.drop 1)).map (fun n => -(n : Int))
  else (parseNatHead s).map (fun n => (n : Int))

/-- Model of the JS truthiness test `if (messageId)` on a possibly-undefined
numeric message id. -/
def jsTruthyNat : Option Nat → Bool
  | some n => n != 0
  | none => false

/-- Model of JS template interpolation of a possibly-undefined string. -/
def jsStr : Option Str → Str
  | some s => s
  | none => str "undefined"

/-- Model of the JS `a || b` fallback on a possibly-undefined string: the
empty string is falsy, so it also falls through to the default. -/
def jsOrStr : Option Str → Str → Str
  | some s, d => if s = [] then d else s
  | none, d => d

/-- Model of `[...new Set(xs)]`: deduplicate keeping first occurrences. -/
def jsSetDedupAux (seen : List Str) : List Str → List Str
  | [] => []
  | x :: xs =>
    if x ∈ seen then jsSetDedupAux seen xs
    else x :: jsSetDedupAux (x :: seen) xs

/-- Model of `[...new Set(xs)]` (src/unnamed/part_000, recat branch). -/
def jsSetDedup (l : List Str) : List Str := jsSetDedupAux [] l

/-! ### Data model (src/api/src/types, src/supabase schema) -/

inductive InputType
  | voice
  | text
deriving DecidableEq, Repr

/-- Result of the categorize operation (`CategoryResult` in types). The JS
confidence number is carried as a rational; no claim computes with it. -/
structure CategoryResult where
  category : Str
  confidence : Rat
  tags : List Str
deriving DecidableEq, Repr

/-- Result of the generateInsights operation (`InsightResult` in types). -/
structure InsightResult where
  themes : List Str
  connections : List Str
  observation : Str
deriving DecidableEq, Repr

/-- A persisted idea record (`ideas` table row), with the fields the
handlers and the web table read. -/
structure IdeaRec where
  id : Str
  created_at : Str
  category : Str
  category_edited : Option Str := none
  transcript : Str
  transcript_edited : Option Str := none
  is_starred : Bool := false
  is_archived : Bool := false
  tags : List Str := []
deriving DecidableEq, Repr

/-! ### AI provider chain (src/api/src/services/ai-provider.ts)

A provider is interpreted by its three operations; a failing backend call is
an `Except.error` carrying the JS error's message.  `AIServiceWithFallback`
holds an ordered list of providers. -/

structure AIProvider where
  transcribe : List Nat → Except Str Str
  categorize : Str → List Str → Except Str CategoryResult
  generateInsights : List IdeaRec → Except Str InsightResult

/-- Loop body of `AIServiceWithFallback.tryWithFallback`: try the providers
in order, keeping the latest error (`lastError`); a success returns at once.
The second component is the list of providers actually invoked, in
invocation order (the source awaits each call inside a sequential
`for...of` loop, so invocation order is list order and never concurrent). -/
def tryWithFallbackGo (op : AIProvider → Except Str α) :
    List AIProvider → Option Str → Except Str α × List AIProvider
  | [], lastError => (.error (lastError.getD (str "All providers failed")), [])
  | p :: ps, _lastError =>
    match op p with
    | .ok v => (.ok v, [p])
    | .error e =>
      let r := tryWithFallbackGo op ps (some e)
      (r.1, p :: r.2)

/-- `AIServiceWithFallback.tryWithFallback` (ai-provider.ts lines 156-171):
`lastError` starts as `null` and `throw lastError || new Error('All
providers failed')` runs after the loop. -/
def tryWithFallback (providers : List AIProvider) (op : AIProvider → Except Str α) :
    Except Str α :=
  (tryWithFallbackGo op providers none).1

/-- The providers a chain call invokes, in order. -/
def invokedProviders (providers : List AIProvider) (op : AIProvider → Except Str α) :
    List AIProvider :=
  (tryWithFallbackGo op providers none).2

/-- `AIServiceWithFallback.transcribe`. -/
def chainTranscribe (providers : List AIProvider) (audio : List Nat) : Except Str Str :=
  tryWithFallback providers (fun p => p.transcribe audio)

/-- `AIServiceWithFallback.categorize`. -/
def chainCategorize (providers : List AIProvider) (text : Str)
    (existingCategories : List Str) : Except Str CategoryResult :=
  tryWithFallback providers (fun p => p.categorize text existingCategories)

/-- `AIServiceWithFallback.generateInsights`. -/
def chainGenerateInsights (providers : List AIProvider) (ideas : List IdeaRec) :
    Except Str InsightResult :=
  tryWithFallback providers (fun p => p.generateInsights ideas)

/-! ### Conversation state (src/unnamed/part_000, interface UserState) -/

/-- A pending transcript edit: the id segment destructured from the `edit:`
callback payload (undefined when the payload had no second segment) and the
message to delete once the replacement arrives. -/
structure PendingEdit where
  ideaId : Option Str
  messageId : Nat
deriving DecidableEq, Repr

/-- An idea captured but awaiting confirm/discard (`pendingIdea`). -/
structure PendingIdea where
  text : Str
  inputType : InputType
deriving DecidableEq, Repr

/-- Per-user conversation state; all fields start out undefined/falsy in the
source (`userStates.set(userId, {})`). -/
structure UserState where
  pendingEdit : Option PendingEdit := none
  pendingSearch : Bool := false
  paused : Bool := false
  confirmMode : Bool := false
  pendingIdea : Option PendingIdea := none
  browseOffset : Option Int := none
deriving DecidableEq, Repr

/-! ### Observable effects of a handler run

Each constructor records one outbound Telegram call or one call into the
persistence / AI boundary, in program order. -/

inductive IdeaUpdate
  | transcriptEdited (text : Str)
  | categoryEdited (text : Str)
  | starred (b : Bool)
  | archived (b : Bool)
deriving DecidableEq, Repr

/-- An inline keyboard, flattened to (label, callback-data) pairs; the
`row()` layout calls are presentation only and are not modelled. -/
abbrev Keyboard := List (Str × Str)

inductive Effect
  | reply (text : Str)
  | replyKb (text : Str) (kb : Keyboard)
  | replyForce (text : Str)
  | editMsg (chatMsgId : Nat) (text : Str)
  | editMsgKb (chatMsgId : Nat) (text : Str) (kb : Keyboard)
  | editCur (text : Str)
  | editCurKb (text : Str) (kb : Keyboard)
  | editMarkupCur (kb : Keyboard)
  | deleteMsg (chatMsgId : Nat)
  | deleteCur
  | answerCb (text : Option Str)
  | getProfile
  | getCategories
  | getIdeasPage (limit : Nat) (offset : Nat)
  | getStats
  | searchCall (query : Str)
  | transcribeCall
  | categorizeCall (text : Str) (existing : List Str)
  | createIdeaCall (inputType : InputType) (transcript : Str) (category : Str)
      (confidence : Rat) (tags : List Str)
  | updateIdeaCall (ideaId : Option Str) (upd : IdeaUpdate)
deriving DecidableEq, Repr

/-- Environment: the responses of the external collaborators (Supabase
reads, the AI chain's provider list, transcript bytes, message ids) that a
single handler run observes. -/
structure Env where
  processingMsgId : Nat := 1
  cbMsgId : Option Nat := none
  providers : List AIProvider := []
  audio : List Nat := []
  userCategories : List Str := []
  createResult : Except Str Str := .ok (str "idea-1")
  updateOk : Bool := true
  searchResult : Except Str (List IdeaRec) := .ok []
  db : List IdeaRec := []
  thisMonth : Nat := 0
  topCategories : List (Str × Nat) := []
  fmtDate : Str → Str := fun d => d

/-! ### Formatting helpers (src/unnamed/part_000 lines 36-67) -/

/-- `truncate(text, maxLength = 100)`: lengths are counted in characters in
this model (the JS source counts UTF-16 units; they agree on the texts the
claims use). -/
def truncate (text : Str) (maxLength : Nat := 100) : Str :=
  if text.length ≤ maxLength then text
  else text.take (maxLength - 3) ++ str "..."

/-- `formatIdea` (part_000 lines 41-45). The `new
Date(...).toLocaleDateString(...)` call is an external locale library call,
abstracted as `fmtDate`. Note it renders `idea.category` and
`idea.transcript`, not the edited fields. -/
def formatIdea (fmtDate : Str → Str) (idea : IdeaRec) : Str :=
  (if idea.is_starred then str "⭐ " else []) ++ str "[" ++ fmtDate idea.created_at
    ++ str "] " ++ idea.category ++ str ": " ++ truncate idea.transcript 50

/-- Category shown by a web idea card (+page.svelte line 242:
`idea.category_edited || idea.category`). -/
def webCategoryText (idea : IdeaRec) : Str :=
  jsOrStr idea.category_edited idea.category

/-- Transcript shown by a web idea card (+page.svelte line 253:
`idea.transcript_edited || idea.transcript`). -/
def webTranscriptText (idea : IdeaRec) : Str :=
  jsOrStr idea.transcript_edited idea.transcript

/-- `getMainMenuKeyboard()`. -/
def mainMenuKb : Keyboard :=
  [(str "📋 My Ideas", str "menu_ideas"), (str "🔍 Search", str "menu_search"),
   (str "📊 Stats", str "menu_stats"), (str "⚙️ Settings", str "menu_settings"),
   (str "❓ Help", str "menu_help")]

/-- `getSettingsKeyboard(state)`. -/
def settingsKb (s : UserState) : Keyboard :=
  [((if s.paused then str "▶️ Resume Capture" else str "⏸️ Pause Capture"),
      str "settings_pause"),
   ((if s.confirmMode then str "☑️ Auto-save: OFF" else str "✅ Auto-save: ON"),
      str "settings_confirm"),
   (str "« Back to Menu", str "menu_main")]

/-- The Save/Discard keyboard attached to the confirm-mode draft prompt
(part_000 lines 178-180 and 245-247). -/
def confirmKb : Keyboard :=
  [(str "✅ Save", str "confirm_save"), (str "❌ Discard", str "confirm_discard")]

/-- The draft prompt text (part_000 lines 183 and 250). -/
def confirmPrompt (text : Str) : Str :=
  str "💭 *Save this?*\n\n\"" ++ truncate text 200 ++ str "\""

/-- The action keyboard attached to a freshly saved idea (saveIdea). -/
def savedIdeaKb (ideaId : Str) : Keyboard :=
  [(str "⭐", str "star:" ++ ideaId), (str "✏️", str "edit:" ++ ideaId),
   (str "🏷️", str "recat:" ++ ideaId), (str "🗑️", str "archive:" ++ ideaId)]

/-- Joined hashtag list: `tags.map(t => '#'+t).join(' ') || '-'`. -/
def tagsText (tags : List Str) : Str :=
  let j := List.intercalate (str " ") (tags.map (fun t => str "#" ++ t))
  if j = [] then str "-" else j

/-- The saved-idea summary message (saveIdea, part_000 lines 616-619). -/
def savedMessage (transcript : Str) (c : CategoryResult) : Str :=
  str "✅ *Saved!*\n\n\"" ++ truncate transcript 150 ++ str "\"\n\n📁 "
    ++ c.category ++ str "  🏷️ " ++ tagsText c.tags

/-- Numbered idea list as rendered by the browse / search replies. -/
def ideasListText (fmtDate : Str → Str) (startIndex : Nat) (ideas : List IdeaRec) : Str :=
  List.intercalate (str "\n")
    (ideas.enum.map (fun p =>
      natRepr (startIndex + p.1 + 1) ++ str ". " ++ formatIdea fmtDate p.2))

/-! ### Persistence reads used by the browse screen

`Env.db` holds the requesting user's idea rows in newest-first order (the
store orders by `created_at` descending). -/

/-- The user's ideas excluding archived ones, as every read in
src/unnamed/part_003 filters with `.eq('is_archived', false)`. -/
def nonArchived (db : List IdeaRec) : List IdeaRec :=
  db.filter (fun i => !i.is_archived)

/-- Modelled from the spec: the handler imports `getAllIdeas` from the
Supabase service but that function's definition is not among the repository
sources; per the spec, requesting offset O with page size `limit` returns
the user's non-archived ideas `[O, O+limit)` ordered newest-first. -/
def getAllIdeas (db : List IdeaRec) (limit offset : Nat) : List IdeaRec :=
  ((nonArchived db).drop offset).take limit

/-- `getUserStats(...).totalIdeas` (part_003 lines 166-170): exact count of
the user's rows with `is_archived = false`. -/
def totalIdeas (db : List IdeaRec) : Nat := (nonArchived db).length

/-- `getUserStats` message body shared by `showStats`/`showStatsInline`. -/
def statsMsg (env : Env) : Str :=
  let base := str "📊 *Your Stats*\n\nTotal: " ++ natRepr (totalIdeas env.db)
    ++ str " ideas\nThis month: " ++ natRepr env.thisMonth ++ str "\n"
  if 0 < env.topCategories.length then
    base ++ str "\n*Top Categories:*\n"
      ++ List.flatten ((env.topCategories.take 5).map
          (fun c => str "• " ++ c.1 ++ str ": " ++ natRepr c.2 ++ str "\n"))
  else base

/-- Navigation keyboard built by `showIdeasInline` (part_000 lines 469-478)
from the fetched page length, the current offset and the total count. -/
def browseKb (len offset total : Nat) : Keyboard :=
  (if 0 < offset then [(str "« Prev", str "browse_" ++ intRepr ((offset : Int) - 5))]
   else [])
  ++ (if len = 5 ∧ offset + 5 < total then
        [(str "Next »", str "browse_" ++ natRepr (offset + 5))]
      else [])
  ++ [(str "« Menu", str "menu_main")]

/-- Header plus numbered list of `showIdeasInline`'s non-empty screen. -/
def myIdeasText (env : Env) (ideas : List IdeaRec) (offset total : Nat) : Str :=
  str "📋 *My Ideas* (" ++ natRepr (offset + 1) ++ str "-"
    ++ natRepr (offset + ideas.length) ++ str " of " ++ natRepr total
    ++ str ")\n\n" ++ ideasListText env.fmtDate offset ideas

/-- `showIdeasInline(ctx, profileId, offset)` (part_000 lines 452-487). -/
def showIdeasEffects (env : Env) (offset : Nat) : List Effect :=
  let ideas := getAllIdeas env.db 5 offset
  let total := totalIdeas env.db
  let base := [Effect.getIdeasPage 5 offset, Effect.getStats]
  if ideas.length = 0 ∧ offset = 0 then
    base ++ [Effect.editCurKb
      (str "📋 *My Ideas*\n\nNo ideas yet! Send me text or voice to capture your first idea.")
      [(str "« Menu", str "menu_main")]]
  else
    base ++ [Effect.editCurKb (myIdeasText env ideas offset total)
      (browseKb ideas.length offset total)]

/-- `showStatsInline`. -/
def statsInlineEffects (env : Env) : List Effect :=
  [Effect.getStats, Effect.editCurKb (statsMsg env) [(str "« Menu", str "menu_main")]]

/-- `showHelpInline`. -/
def helpInlineEffect : Effect :=
  Effect.editCurKb
    (str "❓ *Help*\n\n*Capture ideas:*\n• Send text or voice → Saved automatically\n• Start with ? → Not saved\n\n*Tips:*\n• Use Settings to pause capture\n• Use Settings for confirm mode\n• Type /menu anytime for this menu")
    [(str "« Menu", str "menu_main")]

/-- `performSearch(ctx, query)` (part_000 lines 570-588). -/
def performSearchEffects (env : Env) (query : Str) : List Effect :=
  match env.searchResult with
  | .error _ => [Effect.getProfile, Effect.searchCall query, Effect.reply (str "Search failed.")]
  | .ok ideas =>
    if ideas.length = 0 then
      [Effect.getProfile, Effect.searchCall query,
       Effect.replyKb (str "No results for \"" ++ query ++ str "\"") mainMenuKb]
    else
      [Effect.getProfile, Effect.searchCall query,
       Effect.replyKb (str "🔍 *\"" ++ query ++ str "\"* - " ++ natRepr ideas.length
         ++ str " result(s)\n\n" ++ ideasListText env.fmtDate 0 ideas) mainMenuKb]

/-- `saveIdea(...)` (part_000 lines 590-628): fetch categories, categorize
through the fallback chain, insert the idea, then edit or send the summary
message. The boolean is true when a step threw (the categorize chain
exhausted, or the insert failed), in which case the caller's catch block
runs; the effect list records the calls attempted before the throw. -/
def saveIdea (env : Env) (inputType : InputType) (transcript : Str)
    (messageId : Option Nat) : List Effect × Bool :=
  let effs := [Effect.getCategories, Effect.categorizeCall transcript env.userCategories]
  match chainCategorize env.providers transcript env.userCategories with
  | .error _ => (effs, true)
  | .ok c =>
    let effs := effs ++ [Effect.createIdeaCall inputType transcript c.category c.confidence c.tags]
    match env.createResult with
    | .error _ => (effs, true)
    | .ok ideaId =>
      let msg := savedMessage transcript c
      let out := if jsTruthyNat messageId then
          Effect.editMsgKb (messageId.getD 0) msg (savedIdeaKb ideaId)
        else Effect.replyKb msg (savedIdeaKb ideaId)
      (effs ++ [out], false)

/-! ### The text-message handler (part_000 lines 197-260) -/

/-- The capture tail of the text handler (part_000 lines 238-259): reply
with a processing note, fetch the profile, then either stage a draft for
confirmation (confirm mode) or categorize-and-persist via `saveIdea`; a
throw inside the try is answered by editing the processing message. -/
def captureText (env : Env) (s : UserState) (text : Str) : UserState × List Effect :=
  let base := [Effect.reply (str "📝 Processing..."), Effect.getProfile]
  if s.confirmMode then
    ({ s with pendingIdea := some ⟨text, InputType.text⟩ },
     base ++ [Effect.editMsgKb env.processingMsgId (confirmPrompt text) confirmKb])
  else
    let r := saveIdea env InputType.text text (some env.processingMsgId)
    (s, base ++ r.1
      ++ if r.2 then [Effect.editMsg env.processingMsgId (str "❌ Error. Try again.")] else [])

/-- The guidance reply for a leading question mark (part_000 lines 227-233). -/
def guidanceReply : Str :=
  str "❓ Questions aren\x27t saved.\n\nUse the menu to browse:"

/-- The `bot.on('message:text')` handler (part_000 lines 197-260). Branches
in source order: empty/command early return, pendingEdit, pendingSearch,
question prefix, paused, capture. -/
def handleText (env : Env) (s : UserState) (rawText : Str) : UserState × List Effect :=
  let text := strTrim rawText
  if text = [] ∨ strStarts text (str "/") then (s, [])
  else
    match s.pendingEdit with
    | some pe =>
      if env.updateOk then
        ({ s with pendingEdit := none },
         [Effect.getProfile, Effect.updateIdeaCall pe.ideaId (.transcriptEdited text),
          Effect.deleteMsg pe.messageId, Effect.reply (str "✅ Updated!")])
      else
        ({ s with pendingEdit := none },
         [Effect.getProfile, Effect.updateIdeaCall pe.ideaId (.transcriptEdited text),
          Effect.reply (str "❌ Update failed.")])
    | none =>
      if s.pendingSearch then
        ({ s with pendingSearch := false }, performSearchEffects env text)
      else if strStarts text (str "?") then
        (s, [Effect.replyKb guidanceReply mainMenuKb])
      else if s.paused then (s, [])
      else captureText env s text

/-! ### The voice-message handler (part_000 lines 146-194) -/

def MAX_VOICE_DURATION_SECONDS : Nat := 120

/-- Over-limit reply: duration rendered as m:ss with `padStart(2, '0')`. -/
def voiceTooLong (duration : Nat) : Str :=
  let secs := natRepr (duration % 60)
  str "⏱️ Max 2 minutes. Yours: " ++ natRepr (duration / 60) ++ str ":"
    ++ (if secs.length < 2 then List.replicate (2 - secs.length) '0' ++ secs else secs)

/-- The `bot.on('message:voice')` handler (part_000 lines 146-194). The
Telegram file download (getFile/fetch) is transport and not recorded as an
effect; `Env.audio` is the fetched buffer. -/
def handleVoice (env : Env) (s : UserState) (duration : Nat) : UserState × List Effect :=
  if s.paused then (s, [])
  else if MAX_VOICE_DURATION_SECONDS < duration then
    (s, [Effect.reply (voiceTooLong duration)])
  else
    let base := [Effect.reply (str "🎤 Processing..."), Effect.getProfile, Effect.transcribeCall]
    match chainTranscribe env.providers env.audio with
    | .error _ =>
      (s, base ++ [Effect.editMsg env.processingMsgId (str "❌ Error processing. Try again.")])
    | .ok transcript =>
      if strTrim transcript = [] then
        (s, base ++ [Effect.editMsg env.processingMsgId
          (str "❌ Couldn\x27t understand. Try again or send as text.")])
      else if s.confirmMode then
        ({ s with pendingIdea := some ⟨transcript, InputType.voice⟩ },
         base ++ [Effect.editMsgKb env.processingMsgId (confirmPrompt transcript) confirmKb])
      else
        let r := saveIdea env InputType.voice transcript (some env.processingMsgId)
        (s, base ++ r.1
          ++ if r.2 then
              [Effect.editMsg env.processingMsgId (str "❌ Error processing. Try again.")]
            else [])

/-! ### Callback payloads (part_000 lines 363-409) -/

/-- The `setcat` payload built by the recat keyboard (part_000 line 395):
the category itself may contain colons. -/
def buildSetcatPayload (ideaId cat : Str) : Str :=
  str "setcat:" ++ ideaId ++ str ":" ++ cat

/-- The payload parse at part_000 lines 363 and 405:
`const [action, ideaId, ...rest] = data.split(':')` with the extra segment
reassembled as `rest.join(':')`. -/
def parseCallbackData (data : Str) : Str × Option Str × Str :=
  let parts := data.splitOn ':'
  (parts.headD [], parts[1]?, List.intercalate (str ":") (parts.drop 2))

/-- The fixed seed categories offered by the recat keyboard. -/
def defaultCats : List Str :=
  [str "Product", str "Business", str "Personal", str "Creative",
   str "Technical", str "Learning"]

/-- The recat choice keyboard (part_000 lines 393-398). -/
def recatKb (ideaIdTxt : Str) (cats : List Str) : Keyboard :=
  (cats.map (fun c => (c, buildSetcatPayload ideaIdTxt c)))
    ++ [(str "« Cancel", str "cancel")]

/-- Effects of one `updateIdea` call followed by the answer toast, and the
prompt-message deletion where the source performs one; on a store failure
the surrounding catch answers with the terse error toast instead. -/
def updateEffects (env : Env) (id? : Option Str) (upd : IdeaUpdate)
    (ans : Option Str) (thenDelete : Bool) : List Effect :=
  if env.updateOk then
    [Effect.updateIdeaCall id? upd, Effect.answerCb ans]
      ++ (if thenDelete then [Effect.deleteCur] else [])
  else
    [Effect.updateIdeaCall id? upd, Effect.answerCb (some (str "Error"))]

/-- The `bot.on('callback_query:data')` handler (part_000 lines 263-425).
Branches in source order: the menu literals, the settings toggles, the
`browse_` payloads, `confirm_save` (guarded by a present draft),
`confirm_discard`, then the colon-split action dispatch; a payload matching
no arm does nothing beyond the profile fetch. -/
def handleCallback (env : Env) (s : UserState) (data : Str) : UserState × List Effect :=
  let pro := [Effect.getProfile]
  if data = str "menu_main" then
    (s, pro ++ [Effect.answerCb none,
      Effect.editCurKb (str "💡 *IdeaFactory Menu*") mainMenuKb])
  else if data = str "menu_ideas" then
    ({ s with browseOffset := some 0 },
     pro ++ [Effect.answerCb none] ++ showIdeasEffects env 0)
  else if data = str "menu_search" then
    ({ s with pendingSearch := true },
     pro ++ [Effect.answerCb none,
       Effect.editCur (str "🔍 *Search*\n\nSend me what you\x27re looking for:")])
  else if data = str "menu_stats" then
    (s, pro ++ [Effect.answerCb none] ++ statsInlineEffects env)
  else if data = str "menu_settings" then
    (s, pro ++ [Effect.answerCb none, Effect.editCurKb (str "⚙️ *Settings*") (settingsKb s)])
  else if data = str "menu_help" then
    (s, pro ++ [Effect.answerCb none, helpInlineEffect])
  else if data = str "settings_pause" then
    let s1 := { s with paused := !s.paused }
    (s1, pro ++ [Effect.answerCb (some (if s1.paused then str "Paused" else str "Resumed")),
      Effect.editCurKb (str "⚙️ *Settings*") (settingsKb s1)])
  else if data = str "settings_confirm" then
    let s1 := { s with confirmMode := !s.confirmMode }
    (s1, pro ++ [Effect.answerCb (some (if s1.confirmMode then str "Confirm mode ON"
        else str "Auto-save ON")),
      Effect.editCurKb (str "⚙️ *Settings*") (settingsKb s1)])
  else if strStarts data (str "browse_") then
    let off? := jsParseInt ((data.splitOn '_').getD 1 [])
    match off? with
    | some off =>
      if 0 ≤ off then
        ({ s with browseOffset := some off },
         pro ++ [Effect.answerCb none] ++ showIdeasEffects env off.toNat)
      else
        -- a negative offset (never produced by the bot's own keyboards)
        -- makes the range query fail inside showIdeasInline's catch
        ({ s with browseOffset := some off },
         pro ++ [Effect.answerCb none])
    | none =>
      -- parseInt yields NaN (never produced by the bot's own keyboards);
      -- the page query fails inside showIdeasInline's catch
      ({ s with browseOffset := none }, pro ++ [Effect.answerCb none])
  else if data = str "confirm_save" ∧ s.pendingIdea.isSome then
    match s.pendingIdea with
    | some d =>
      let r := saveIdea env d.inputType d.text env.cbMsgId
      if r.2 then
        (s, pro ++ [Effect.answerCb (some (str "Saving..."))] ++ r.1
          ++ [Effect.answerCb (some (str "Error"))])
      else
        ({ s with pendingIdea := none },
         pro ++ [Effect.answerCb (some (str "Saving..."))] ++ r.1)
    | none => (s, pro)
  else if data = str "confirm_discard" then
    ({ s with pendingIdea := none },
     pro ++ [Effect.answerCb (some (str "Discarded")), Effect.deleteCur])
  else
    let parts := data.splitOn ':'
    let action := parts.headD []
    let ideaId? := parts[1]?
    if action = str "star" then
      (s, pro ++ updateEffects env ideaId? (.starred true) (some (str "⭐ Starred!")) false)
    else if action = str "unstar" then
      (s, pro ++ updateEffects env ideaId? (.starred false) (some (str "Unstarred")) false)
    else if action = str "edit" then
      ({ s with pendingEdit := some ⟨ideaId?, env.cbMsgId.getD 0⟩ },
       pro ++ [Effect.answerCb none, Effect.replyForce (str "✏️ Send the corrected text:")])
    else if action = str "archive" then
      (s, pro ++ updateEffects env ideaId? (.archived true) (some (str "🗑️ Archived")) true)
    else if action = str "recat" then
      let allCats := jsSetDedup (env.userCategories ++ defaultCats)
      (s, pro ++ [Effect.getCategories, Effect.answerCb none,
        Effect.editMarkupCur (recatKb (jsStr ideaId?) allCats)])
    else if action = str "setcat" then
      let newCategory := List.intercalate (str ":") (parts.drop 2)
      (s, pro ++ updateEffects env ideaId? (.categoryEdited newCategory)
        (some (str "→ " ++ newCategory)) true)
    else if action = str "view" then
      -- showIdeaDetail is a TODO stub in the source
      (s, pro ++ [Effect.answerCb none])
    else if action = str "cancel" then
      (s, pro ++ [Effect.answerCb none, Effect.deleteCur])
    else (s, pro)

/-! ### The shared per-user state table (part_000 lines 27-34) -/

/-- The `userStates` map, keyed by the numeric Telegram user id. -/
def StateMap := Nat → Option UserState

/-- `getUserState(userId)`: create the empty record on first touch, then
return the map's record for that id. -/
def getUserStateM (m : StateMap) (uid : Nat) : StateMap × UserState :=
  match m uid with
  | some s => (m, s)
  | none => (fun u => if u = uid then some {} else m u, {})

/-- Store a user's record back; the source mutates the record in place, so
after a handler run the map binds the id to the run's final state. -/
def setUserStateM (m : StateMap) (uid : Nat) (s : UserState) : StateMap :=
  fun u => if u = uid then some s else m u

/-- The text handler at the map level: the source returns on empty/command
text before ever touching `userStates`. -/
def handleTextTop (env : Env) (m : StateMap) (uid : Nat) (rawText : Str) :
    StateMap × List Effect :=
  let text := strTrim rawText
  if text = [] ∨ strStarts text (str "/") then (m, [])
  else
    let r := getUserStateM m uid
    let r2 := handleText env r.2 rawText
    (setUserStateM r.1 uid r2.1, r2.2)

/-- The voice handler at the map level. -/
def handleVoiceTop (env : Env) (m : StateMap) (uid : Nat) (duration : Nat) :
    StateMap × List Effect :=
  let r := getUserStateM m uid
  let r2 := handleVoice env r.2 duration
  (setUserStateM r.1 uid r2.1, r2.2)

/-- The callback handler at the map level. -/
def handleCallbackTop (env : Env) (m : StateMap) (uid : Nat) (data : Str) :
    StateMap × List Effect :=
  let r := getUserStateM m uid
  let r2 := handleCallback env r.2 data
  (setUserStateM r.1 uid r2.1, r2.2)

/-! ## Provider-chain lemmas -/

/-- The fallback loop stops at the first succeeding provider: every earlier
provider fails, the succeeding one's value is returned, and the invocation
trace is exactly the failing head followed by the succeeding provider. -/
theorem tryWithFallbackGo_ok {α : Type} (op : AIProvider → Except Str α)
    (failed : List AIProvider) (succ : AIProvider) (rest : List AIProvider)
    (v : α) (err : AIProvider → Str)
    (hf : ∀ p ∈ failed, op p = .error (err p)) (hs : op succ = .ok v) :
    ∀ last, tryWithFallbackGo op (failed ++ succ :: rest) last = (.ok v, failed ++ [succ]) := by
  induction failed with
  | nil => intro last; simp [tryWithFallbackGo, hs]
  | cons p ps ih =>
    intro last
    have hp := hf p (List.mem_cons_self p ps)
    have := ih (fun q hq => hf q (List.mem_cons_of_mem p hq))
    simp [tryWithFallbackGo, hp, this]

/-- When every provider fails, the loop runs the whole chain and throws the
last provider's error. -/
theorem tryWithFallbackGo_allFail {α : Type} (op : AIProvider → Except Str α)
    (qs : List AIProvider) (q : AIProvider) (err : AIProvider → Str)
    (hf : ∀ p ∈ qs ++ [q], op p = .error (err p)) :
    ∀ last, tryWithFallbackGo op (qs ++ [q]) last = (.error (err q), qs ++ [q]) := by
  induction qs with
  | nil =>
    intro last
    have hq := hf q (by simp)
    simp [tryWithFallbackGo, hq]
  | cons p ps ih =>
    intro last
    have hp := hf p (by simp)
    have := ih (fun r hr => hf r (by simpa using Or.inr (by simpa using hr)))
    simp [tryWithFallbackGo, hp, this]

/-- C1: for every provider chain and each of the three operations
(transcribe, categorize, generateInsights), if the providers before `succ`
all fail and `succ` succeeds, the chain call returns exactly `succ`'s result
and the invocation trace is the failing head followed by `succ` — the
providers up to and including `succ`, in configured order, and none beyond
it (the loop is a sequential `for...of` that awaits each provider, so calls
are strictly ordered, never concurrent). -/
theorem claim_C1_fallback_first_success
    (failed rest : List AIProvider) (succ : AIProvider)
    (audio : List Nat) (text : Str) (cats : List Str) (ideas : List IdeaRec)
    (tv : Str) (cv : CategoryResult) (iv : InsightResult) (err : AIProvider → Str) :
    ((∀ p ∈ failed, p.transcribe audio = .error (err p)) →
      succ.transcribe audio = .ok tv →
      chainTranscribe (failed ++ succ :: rest) audio = .ok tv ∧
      invokedProviders (failed ++ succ :: rest) (fun p => p.transcribe audio)
        = failed ++ [succ]) ∧
    ((∀ p ∈ failed, p.categorize text cats = .error (err p)) →
      succ.categorize text cats = .ok cv →
      chainCategorize (failed ++ succ :: rest) text cats = .ok cv ∧
      invokedProviders (failed ++ succ :: rest) (fun p => p.categorize text cats)
        = failed ++ [succ]) ∧
    ((∀ p ∈ failed, p.generateInsights ideas = .error (err p)) →
      succ.generateInsights ideas = .ok iv →
      chainGenerateInsights (failed ++ succ :: rest) ideas = .ok iv ∧
      invokedProviders (failed ++ succ :: rest) (fun p => p.generateInsights ideas)
        = failed ++ [succ]) := by
  refine ⟨fun hf hs => ?_, fun hf hs => ?_, fun hf hs => ?_⟩ <;>
    constructor <;>
      simp [chainTranscribe, chainCategorize, chainGenerateInsights,
        tryWithFallback, invokedProviders, tryWithFallbackGo_ok _ _ _ _ _ _ hf hs]

/-- Concrete instance of C1: a failing provider followed by a succeeding
one returns the second provider's transcription and invokes both in order. -/
def wProvFail : AIProvider where
  transcribe := fun _ => .error (str "down")
  categorize := fun _ _ => .error (str "down")
  generateInsights := fun _ => .error (str "down")

/-- A provider whose three operations all succeed, for concrete instances. -/
def wProvOk : AIProvider where
  transcribe := fun _ => .ok (str "hello")
  categorize := fun _ _ => .ok ⟨str "Product", 1, [str "demo"]⟩
  generateInsights := fun _ => .ok ⟨[], [], str "obs"⟩

/-- Witness for C1 at a concrete two-provider chain. -/
theorem claim_C1_witness :
    chainTranscribe [wProvFail, wProvOk] [] = .ok (str "hello") ∧
    invokedProviders [wProvFail, wProvOk] (fun p => p.transcribe [])
      = [wProvFail, wProvOk] := by
  have h := (claim_C1_fallback_first_success [wProvFail] [] wProvOk [] (str "t") []
    [] (str "hello") ⟨str "Product", 1, [str "demo"]⟩ ⟨[], [], str "obs"⟩
    (fun _ => str "down")).1
  exact h (by intro p hp; simp only [List.mem_singleton] at hp; subst hp; rfl) rfl

/-- C2: for every non-empty chain (written `qs ++ [q]`), if every provider
fails then each of the three chain operations fails with exactly the last
provider's error, and the invocation trace covers the whole chain — no
intermediate failure escapes before the chain is exhausted. -/
theorem claim_C2_fallback_exhausted
    (qs : List AIProvider) (q : AIProvider)
    (audio : List Nat) (text : Str) (cats : List Str) (ideas : List IdeaRec)
    (err : AIProvider → Str) :
    ((∀ p ∈ qs ++ [q], p.transcribe audio = .error (err p)) →
      chainTranscribe (qs ++ [q]) audio = .error (err q) ∧
      invokedProviders (qs ++ [q]) (fun p => p.transcribe audio) = qs ++ [q]) ∧
    ((∀ p ∈ qs ++ [q], p.categorize text cats = .error (err p)) →
      chainCategorize (qs ++ [q]) text cats = .error (err q) ∧
      invokedProviders (qs ++ [q]) (fun p => p.categorize text cats) = qs ++ [q]) ∧
    ((∀ p ∈ qs ++ [q], p.generateInsights ideas = .error (err p)) →
      chainGenerateInsights (qs ++ [q]) ideas = .error (err q) ∧
      invokedProviders (qs ++ [q]) (fun p => p.generateInsights ideas) = qs ++ [q]) := by
  refine ⟨fun hf => ?_, fun hf => ?_, fun hf => ?_⟩ <;>
    constructor <;>
      simp [chainTranscribe, chainCategorize, chainGenerateInsights,
        tryWithFallback, invokedProviders, tryWithFallbackGo_allFail _ _ _ _ hf]

/-- Witness for C2 at a concrete two-provider chain of failing providers. -/
theorem claim_C2_witness :
    chainCategorize [wProvFail, wProvFail] (str "x") [] = .error (str "down") ∧
    invokedProviders [wProvFail, wProvFail] (fun p => p.categorize (str "x") [])
      = [wProvFail, wProvFail] := by
  have h := (claim_C2_fallback_exhausted [wProvFail] wProvFail [] (str "x") [] []
    (fun _ => str "down")).2.1
  exact h (by intro p hp; simp only [List.mem_append, List.mem_singleton] at hp
              rcases hp with hp | hp <;> (subst hp; rfl))

/-! ## Text-handler lemmas -/

/-- C3: for a non-empty, non-command text message the handler applies the
transition rules in priority order — a set pendingEdit is consumed first
(the message becomes the replacement text sent to the store's
edited-transcript update, and pendingEdit is cleared whether or not the
update succeeds); else a set pendingSearch is consumed (the flag is cleared
and the search runs on the message); else a leading question mark yields
only the guidance reply with no state change; else a paused user's message
is dropped silently; else the message is handled by the capture path. -/
theorem claim_C3_text_priority (env : Env) (s : UserState) (raw : Str)
    (hne : strTrim raw ≠ [])
    (hcmd : strStarts (strTrim raw) (str "/") = false) :
    (∀ pe, s.pendingEdit = some pe →
      (handleText env s raw).1 = { s with pendingEdit := none } ∧
      Effect.updateIdeaCall pe.ideaId (.transcriptEdited (strTrim raw))
        ∈ (handleText env s raw).2) ∧
    (s.pendingEdit = none → s.pendingSearch = true →
      (handleText env s raw).1 = { s with pendingSearch := false } ∧
      Effect.searchCall (strTrim raw) ∈ (handleText env s raw).2) ∧
    (s.pendingEdit = none → s.pendingSearch = false →
      strStarts (strTrim raw) (str "?") = true →
      handleText env s raw = (s, [Effect.replyKb guidanceReply mainMenuKb])) ∧
    (s.pendingEdit = none → s.pendingSearch = false →
      strStarts (strTrim raw) (str "?") = false → s.paused = true →
      handleText env s raw = (s, [])) ∧
    (s.pendingEdit = none → s.pendingSearch = false →
      strStarts (strTrim raw) (str "?") = false → s.paused = false →
      handleText env s raw = captureText env s (strTrim raw)) := by
  refine ⟨?_, ?_, ?_, ?_, ?_⟩
  · intro pe hpe
    by_cases hu : env.updateOk <;>
      simp [handleText, hne, hcmd, hpe, hu]
  · intro hpe hps
    refine ⟨by simp [handleText, hne, hcmd, hpe, hps], ?_⟩
    cases hs : env.searchResult with
    | error e =>
      simp [handleText, hne, hcmd, hpe, hps, performSearchEffects, hs]
    | ok ideas =>
      by_cases hl : ideas.length = 0 <;>
        simp [handleText, hne, hcmd, hpe, hps, performSearchEffects, hs, hl]
  · intro hpe hps hq
    simp [handleText, hne, hcmd, hpe, hps, hq]
  · intro hpe hps hq hp
    simp [handleText, hne, hcmd, hpe, hps, hq, hp]
  · intro hpe hps hq hp
    simp [handleText, hne, hcmd, hpe, hps, hq, hp]

/-- Witness for C3: a fresh user sending a question gets the guidance reply
and no state change. -/
theorem claim_C3_witness :
    handleText {} {} (str "?help") = ({}, [Effect.replyKb guidanceReply mainMenuKb]) :=
  (claim_C3_text_priority {} {} (str "?help") (by decide) (by decide)).2.2.1
    rfl rfl (by decide)

/-- C4 counterexample: a paused user whose pendingSearch flag is set sends
plain text; the handler answers with the search reply and clears the flag,
so the claim's "no reply and no state change other than the pause flag"
fails (the pendingSearch branch precedes the pause check). -/
theorem claim_C4_counterexample :
    ¬((handleText {} { paused := true, pendingSearch := true } (str "hello")).2 = [] ∧
      (handleText {} { paused := true, pendingSearch := true } (str "hello")).1
        = { paused := true, pendingSearch := true }) := by
  decide

/-- C4 amended: with paused = true, a voice message is always dropped with
no reply and no state change; a text message is likewise dropped provided
no pendingEdit or pendingSearch is set and the trimmed text does not start
with a question mark — those branches precede the pause check and do
respond. -/
theorem claim_C4_paused_amended (env : Env) (s : UserState) (raw : Str) (duration : Nat)
    (hp : s.paused = true) :
    handleVoice env s duration = (s, []) ∧
    (s.pendingEdit = none → s.pendingSearch = false →
      strStarts (strTrim raw) (str "?") = false →
      handleText env s raw = (s, [])) := by
  constructor
  · simp [handleVoice, hp]
  · intro hpe hps hq
    by_cases hraw : strTrim raw = [] ∨ strStarts (strTrim raw) (str "/") = true
    · simp [handleText, hraw]
    · simp [handleText, hraw, hpe, hps, hq, hp]

/-- Witness for the amended C4: a paused user with the pendingSearch flag
still set has a voice note dropped silently, and a paused idle user has a
plain text dropped silently. -/
theorem claim_C4_witness :
    handleVoice {} { paused := true, pendingSearch := true } 5
      = ({ paused := true, pendingSearch := true }, []) ∧
    handleText {} { paused := true } (str "hello") = ({ paused := true }, []) := by
  have h1 := (claim_C4_paused_amended {} { paused := true, pendingSearch := true }
    (str "x") 5 rfl).1
  have h2 := (claim_C4_paused_amended {} { paused := true } (str "hello") 5 rfl).2
    rfl rfl (by decide)
  exact ⟨h1, h2⟩

/-! ## Confirm-mode lemmas -/

/-- When `saveIdea` does not throw, the categorize chain and the insert both
succeeded and its effect list is exactly the category fetch, the categorize
call, the insert, and the summary message. -/
theorem saveIdea_success_shape (env : Env) (inputType : InputType) (transcript : Str)
    (messageId : Option Nat)
    (h : (saveIdea env inputType transcript messageId).2 = false) :
    ∃ c ideaId,
      chainCategorize env.providers transcript env.userCategories = .ok c ∧
      env.createResult = .ok ideaId ∧
      (saveIdea env inputType transcript messageId).1 =
        [Effect.getCategories, Effect.categorizeCall transcript env.userCategories,
         Effect.createIdeaCall inputType transcript c.category c.confidence c.tags,
         if jsTruthyNat messageId then
           Effect.editMsgKb (messageId.getD 0) (savedMessage transcript c) (savedIdeaKb ideaId)
         else Effect.replyKb (savedMessage transcript c) (savedIdeaKb ideaId)] := by
  cases hc : chainCategorize env.providers transcript env.userCategories with
  | error e => simp [saveIdea, hc] at h
  | ok c =>
    cases hr : env.createResult with
    | error e => simp [saveIdea, hc, hr] at h
    | ok ideaId =>
      exact ⟨c, ideaId, rfl, rfl, by simp [saveIdea, hc, hr]⟩

/-- C5 counterexample: in confirm mode the draft prompt's keyboard is
exactly Save and Discard — it carries no Edit button and no entry with the
confirm-edit payload — and a confirm-edit callback press while a draft is
pending matches no handler arm: it performs nothing beyond the profile
fetch and leaves the state (draft included) unchanged. -/
theorem claim_C5_counterexample :
    (handleText {} { confirmMode := true } (str "new onboarding idea")).2
      = [Effect.reply (str "📝 Processing..."), Effect.getProfile,
         Effect.editMsgKb 1 (confirmPrompt (str "new onboarding idea")) confirmKb] ∧
    confirmKb = [(str "✅ Save", str "confirm_save"),
                 (str "❌ Discard", str "confirm_discard")] ∧
    confirmKb.all (fun b => b.2 != str "confirm_edit") = true ∧
    handleCallback {}
        { confirmMode := true,
          pendingIdea := some ⟨str "new onboarding idea", InputType.text⟩ }
        (str "confirm_edit")
      = ({ confirmMode := true,
           pendingIdea := some ⟨str "new onboarding idea", InputType.text⟩ },
         [Effect.getProfile]) := by
  decide

/-- C5 amended: in confirm mode the draft prompt offers exactly Save and
Discard (no Edit affordance exists and no confirm-edit payload is handled);
Save categorizes and persists the draft text and clears the draft; Discard
clears the draft and deletes the prompt without persisting anything; a
confirm-edit press is a no-op. -/
theorem claim_C5_confirm_flow (env : Env) (s : UserState) (raw : Str) (d : PendingIdea)
    (hne : strTrim raw ≠ []) (hcmd : strStarts (strTrim raw) (str "/") = false)
    (hpe : s.pendingEdit = none) (hps : s.pendingSearch = false)
    (hq : strStarts (strTrim raw) (str "?") = false)
    (hpause : s.paused = false) (hcm : s.confirmMode = true) :
    (handleText env s raw =
      ({ s with pendingIdea := some ⟨strTrim raw, InputType.text⟩ },
       [Effect.reply (str "📝 Processing..."), Effect.getProfile,
        Effect.editMsgKb env.processingMsgId (confirmPrompt (strTrim raw)) confirmKb]) ∧
     confirmKb.all (fun b => b.2 != str "confirm_edit") = true) ∧
    (s.pendingIdea = some d →
      (saveIdea env d.inputType d.text env.cbMsgId).2 = false →
      (handleCallback env s (str "confirm_save")).1 = { s with pendingIdea := none } ∧
      Effect.categorizeCall d.text env.userCategories
        ∈ (handleCallback env s (str "confirm_save")).2 ∧
      ∃ c : CategoryResult,
        chainCategorize env.providers d.text env.userCategories = .ok c ∧
        Effect.createIdeaCall d.inputType d.text c.category c.confidence c.tags
          ∈ (handleCallback env s (str "confirm_save")).2) ∧
    (handleCallback env s (str "confirm_discard") =
      ({ s with pendingIdea := none },
       [Effect.getProfile, Effect.answerCb (some (str "Discarded")), Effect.deleteCur])) ∧
    (handleCallback env s (str "confirm_edit") = (s, [Effect.getProfile])) := by
  refine ⟨⟨?_, by decide⟩, ?_, ?_, ?_⟩
  · simp [handleText, hne, hcmd, hpe, hps, hq, hpause, captureText, hcm]
  · intro hd hsave
    obtain ⟨c, ideaId, hc, hr, heffs⟩ :=
      saveIdea_success_shape env d.inputType d.text env.cbMsgId hsave
    have hrun : handleCallback env s (str "confirm_save")
        = ({ s with pendingIdea := none },
           [Effect.getProfile, Effect.answerCb (some (str "Saving..."))]
             ++ (saveIdea env d.inputType d.text env.cbMsgId).1) := by
      simp +decide [handleCallback, hd, hsave]
    refine ⟨by rw [hrun], ?_, c, hc, ?_⟩ <;> rw [hrun, heffs] <;> simp
  · simp +decide [handleCallback]
  · simp +decide [handleCallback]

/-- Witness for the amended C5: a concrete confirm-mode capture followed by
the three callback outcomes. -/
theorem claim_C5_witness :
    handleText {} { confirmMode := true } (str "demo")
      = ({ confirmMode := true, pendingIdea := some ⟨str "demo", InputType.text⟩ },
         [Effect.reply (str "📝 Processing..."), Effect.getProfile,
          Effect.editMsgKb 1 (confirmPrompt (str "demo")) confirmKb]) ∧
    handleCallback {} { confirmMode := true } (str "confirm_discard")
      = ({ confirmMode := true, pendingIdea := none },
         [Effect.getProfile, Effect.answerCb (some (str "Discarded")), Effect.deleteCur]) := by
  have h := claim_C5_confirm_flow {} { confirmMode := true } (str "demo")
    ⟨str "demo", InputType.text⟩ (by decide) (by decide) rfl rfl (by decide) rfl rfl
  exact ⟨h.1.1, h.2.2.1⟩

/-! ## Stale confirm-save presses (C9) -/

/-- C9: a confirm-save press with no pending draft performs no
categorization, no persistence and no state change — the guard fails and the
split action matches no switch arm, so only the profile fetch runs; and once
a successful Save has cleared the draft, a repeated confirm-save press
afterwards is exactly such a no-op, so nothing is persisted twice
sequentially. -/
theorem claim_C9_confirm_save_guard (env : Env) (s : UserState) (d : PendingIdea) :
    (s.pendingIdea = none →
      handleCallback env s (str "confirm_save") = (s, [Effect.getProfile])) ∧
    (s.pendingIdea = some d →
      (saveIdea env d.inputType d.text env.cbMsgId).2 = false →
      (handleCallback env s (str "confirm_save")).1 = { s with pendingIdea := none } ∧
      handleCallback env ((handleCallback env s (str "confirm_save")).1)
          (str "confirm_save")
        = ((handleCallback env s (str "confirm_save")).1, [Effect.getProfile])) := by
  have noop : ∀ t : UserState, t.pendingIdea = none →
      handleCallback env t (str "confirm_save") = (t, [Effect.getProfile]) := by
    intro t ht
    simp +decide [handleCallback, ht]
  refine ⟨noop s, fun hd hsave => ?_⟩
  have hrun : (handleCallback env s (str "confirm_save")).1
      = { s with pendingIdea := none } := by
    simp +decide [handleCallback, hd, hsave]
  exact ⟨hrun, by rw [hrun]; exact noop _ rfl⟩

/-- Witness for C9: a fresh user with no draft pressing confirm-save. -/
theorem claim_C9_witness :
    handleCallback {} {} (str "confirm_save") = ({}, [Effect.getProfile]) :=
  (claim_C9_confirm_save_guard {} {} ⟨str "x", InputType.text⟩).1 rfl

/-! ## Display resolution (C6) -/

/-- An idea carrying both original and edited transcript and category. -/
def cexIdea : IdeaRec :=
  { id := str "i1", created_at := str "Jan 1",
    category := str "Product", category_edited := some (str "Business"),
    transcript := str "orig", transcript_edited := some (str "edited") }

/-- C6 counterexample: the bot's formatIdea line is also a rendered display
of an idea, yet for an idea holding both originals and edits it shows the
original category and the original transcript — not the edited values — so
"every rendered display shows the edited value" fails. -/
theorem claim_C6_counterexample :
    cexIdea.transcript_edited = some (str "edited") ∧
    cexIdea.category_edited = some (str "Business") ∧
    formatIdea (fun d => d) cexIdea = str "[Jan 1] Product: orig" := by
  decide

/-- C6 amended: the web table resolves edited-over-original — an idea card
shows the edited transcript/category when it is set and non-empty (the
source uses the JS or-fallback, under which an empty edited string also
falls back), and the original when no edit is set; the bot's formatIdea
line, by contrast, ignores the edited fields entirely and always renders
the original category and transcript. -/
theorem claim_C6_display_resolution (idea : IdeaRec) (e c : Str) (fmtDate : Str → Str)
    (te ce : Option Str) :
    (idea.transcript_edited = some e → e ≠ [] → webTranscriptText idea = e) ∧
    (idea.transcript_edited = none → webTranscriptText idea = idea.transcript) ∧
    (idea.category_edited = some c → c ≠ [] → webCategoryText idea = c) ∧
    (idea.category_edited = none → webCategoryText idea = idea.category) ∧
    formatIdea fmtDate { idea with transcript_edited := te, category_edited := ce }
      = formatIdea fmtDate idea := by
  refine ⟨?_, ?_, ?_, ?_, rfl⟩ <;>
    (intro h; simp [webTranscriptText, webCategoryText, jsOrStr, h])
  all_goals (intro hne; simp [hne])

/-- Witness for the amended C6 at the concrete doubly-edited idea. -/
theorem claim_C6_witness :
    webTranscriptText cexIdea = str "edited" ∧
    webCategoryText cexIdea = str "Business" ∧
    formatIdea (fun d => d)
        { cexIdea with transcript_edited := none, category_edited := none }
      = formatIdea (fun d => d) cexIdea := by
  have h := claim_C6_display_resolution cexIdea (str "edited") (str "Business")
    (fun d => d) none none
  exact ⟨h.1 rfl (by decide), h.2.2.1 rfl (by decide), h.2.2.2.2⟩

/-! ## Per-user state isolation (C10) -/

/-- C10: the shared state table is touched lazily and per key —
getUserState inserts the empty record on first touch of an id, thereafter
hands back the stored record unchanged (a second lookup returns the same
record and map), and running any of the three handlers for one user id
leaves every other id's entry in the map untouched. -/
theorem claim_C10_per_user_isolation (env : Env) (m : StateMap) (uid u2 : Nat)
    (s0 : UserState) (raw : Str) (duration : Nat) (data : Str) :
    (m uid = none →
      getUserStateM m uid
        = ((fun u => if u = uid then some {} else m u), ({} : UserState))) ∧
    (m uid = some s0 → getUserStateM m uid = (m, s0)) ∧
    (getUserStateM (getUserStateM m uid).1 uid
      = ((getUserStateM m uid).1, (getUserStateM m uid).2)) ∧
    (u2 ≠ uid →
      (handleTextTop env m uid raw).1 u2 = m u2 ∧
      (handleVoiceTop env m uid duration).1 u2 = m u2 ∧
      (handleCallbackTop env m uid data).1 u2 = m u2) := by
  have hbase : ∀ x, (getUserStateM m uid).1 x = if x = uid then some (getUserStateM m uid).2 else m x := by
    intro x
    cases hm : m uid with
    | some s =>
      by_cases hx : x = uid
      · subst hx; simp [getUserStateM, hm]
      · simp [getUserStateM, hm, hx]
    | none => simp [getUserStateM, hm]
  refine ⟨fun hm => by simp [getUserStateM, hm], fun hm => by simp [getUserStateM, hm], ?_, ?_⟩
  · cases hm : m uid with
    | some s => simp [getUserStateM, hm]
    | none => simp [getUserStateM, hm]
  · intro hu
    have hframe : (getUserStateM m uid).1 u2 = m u2 := by
      rw [hbase u2, if_neg hu]
    refine ⟨?_, ?_, ?_⟩
    · by_cases hraw : strTrim raw = [] ∨ strStarts (strTrim raw) (str "/") = true
      · simp [handleTextTop, hraw]
      · simp only [handleTextTop, if_neg hraw, setUserStateM]
        rw [if_neg hu, hframe]
    · simp only [handleVoiceTop, setUserStateM]
      rw [if_neg hu, hframe]
    · simp only [handleCallbackTop, setUserStateM]
      rw [if_neg hu, hframe]

/-- Witness for C10: user 2's message run over the empty map leaves user
1's (absent) entry absent. -/
theorem claim_C10_witness :
    (handleTextTop {} (fun _ => none) 2 (str "hi")).1 1 = none ∧
    (handleVoiceTop {} (fun _ => none) 2 7).1 1 = none ∧
    (handleCallbackTop {} (fun _ => none) 2 (str "menu_main")).1 1 = none := by
  have h := (claim_C10_per_user_isolation {} (fun _ => none) 2 1 {} (str "hi") 7
    (str "menu_main")).2.2.2 (by decide)
  exact ⟨h.1, h.2.1, h.2.2⟩

/-! ## Callback payload round-trip (C8) -/

/-- C8: for an idea id without a colon and an arbitrary category string
(which may itself contain colons), building the setcat payload and parsing
it by splitting on colon — action, id, remainder rejoined with colon —
recovers the action, the id, and exactly the original category. -/
theorem claim_C8_payload_roundtrip (ideaId cat : Str) (hid : ':' ∉ ideaId) :
    parseCallbackData (buildSetcatPayload ideaId cat)
      = (str "setcat", some ideaId, cat) := by
  have hdata : buildSetcatPayload ideaId cat
      = str "setcat" ++ ':' :: (ideaId ++ ':' :: cat) := by
    show (str "setcat:" ++ ideaId ++ str ":" ++ cat) = _
    rw [List.append_assoc, List.append_assoc]
    rfl
  have hid' : ∀ x ∈ ideaId, ¬((x == ':') = true) := by
    intro x hx
    simp only [beq_iff_eq]
    exact fun he => hid (he ▸ hx)
  have hsplit : (buildSetcatPayload ideaId cat).splitOn ':'
      = str "setcat" :: ideaId :: cat.splitOn ':' := by
    rw [hdata]
    show List.splitOnP (· == ':') (str "setcat" ++ ':' :: (ideaId ++ ':' :: cat)) = _
    rw [List.splitOnP_first (· == ':') (str "setcat") (by decide) ':' (by decide),
        List.splitOnP_first (· == ':') ideaId hid' ':' (by decide)]
    rfl
  have hjoin : List.intercalate (str ":") (cat.splitOn ':') = cat :=
    List.intercalate_splitOn cat ':'
  simp [parseCallbackData, hsplit, hjoin]

/-- Witness for C8 with a category that itself contains a colon. -/
theorem claim_C8_witness :
    parseCallbackData (buildSetcatPayload (str "42") (str "a:b"))
      = (str "setcat", some (str "42"), str "a:b") :=
  claim_C8_payload_roundtrip (str "42") (str "a:b") (by decide)

/-! ## Decimal payload round-trip, for the browse offsets (C7) -/

theorem digitChar_isDigit {d : Nat} (h : d < 10) : (Nat.digitChar d).isDigit = true := by
  interval_cases d <;> rfl

theorem digitChar_toNat {d : Nat} (h : d < 10) : (Nat.digitChar d).toNat - 48 = d := by
  interval_cases d <;> rfl

theorem digitsVal_append (l : Str) (c : Char) :
    digitsVal (l ++ [c]) = digitsVal l * 10 + (c.toNat - 48) := by
  simp [digitsVal, List.foldl_append]

/-- The fuel-based decimal printer, run with enough fuel, produces a
non-empty all-digit string whose numeric value is the printed number. -/
theorem natReprAux_spec : ∀ fuel n, n < fuel →
    natReprAux fuel n ≠ [] ∧ (∀ ch ∈ natReprAux fuel n, ch.isDigit = true) ∧
      digitsVal (natReprAux fuel n) = n := by
  intro fuel
  induction fuel with
  | zero => intro n h; omega
  | succ f ih =>
    intro n h
    by_cases h10 : n < 10
    · refine ⟨by simp [natReprAux, h10], ?_, ?_⟩
      · intro ch hch
        simp [natReprAux, h10] at hch
        rw [hch]
        exact digitChar_isDigit h10
      · simp [natReprAux, h10, digitsVal]
        exact digitChar_toNat h10
    · have hdiv : n / 10 < f := by
        have h1 : n / 10 < n := Nat.div_lt_self (by omega) (by omega)
        omega
      obtain ⟨hne, hdig, hval⟩ := ih (n / 10) hdiv
      simp only [natReprAux, if_neg h10]
      refine ⟨by simp, ?_, ?_⟩
      · intro ch hch
        rcases List.mem_append.mp hch with hch | hch
        · exact hdig ch hch
        · simp at hch
          rw [hch]
          exact digitChar_isDigit (Nat.mod_lt n (by omega))
      · rw [digitsVal_append, hval, digitChar_toNat (Nat.mod_lt n (by omega))]
        omega

theorem natRepr_spec (n : Nat) :
    natRepr n ≠ [] ∧ (∀ ch ∈ natRepr n, ch.isDigit = true) ∧
      digitsVal (natRepr n) = n :=
  natReprAux_spec (n + 1) n (Nat.lt_succ_self n)

theorem takeWhile_all {p : Char → Bool} :
    ∀ l : Str, (∀ x ∈ l, p x = true) → l.takeWhile p = l
  | [], _ => rfl
  | c :: cs, h => by
    simp only [List.takeWhile, h c (List.mem_cons_self c cs)]
    rw [takeWhile_all cs (fun x hx => h x (List.mem_cons_of_mem c hx))]

/-- Parsing the printed decimal digits of a natural number recovers it. -/
theorem parseNatHead_natRepr (n : Nat) : parseNatHead (natRepr n) = some n := by
  obtain ⟨hne, hdig, hval⟩ := natRepr_spec n
  simp [parseNatHead, takeWhile_all _ hdig, hne, hval]

/-- `parseInt` inverts the number interpolation the keyboards use. -/
theorem jsParseInt_natRepr (n : Nat) : jsParseInt (natRepr n) = some ((n : Nat) : Int) := by
  obtain ⟨hne, hdig, hval⟩ := natRepr_spec n
  have hstart : strStarts (natRepr n) (str "-") = false := by
    cases hr : natRepr n with
    | nil => exact absurd hr hne
    | cons c cs =>
      have hc : c.isDigit = true := hdig c (by rw [hr]; exact List.mem_cons_self c cs)
      have hcne : (c == '-') = false := by
        rw [beq_eq_false_iff_ne]
        intro he
        rw [he] at hc
        exact absurd hc (by decide)
      show (((c :: cs).take (str "-").length == str "-")) = false
      show (([c] : Str) == ['-']) = false
      show ((c == '-') && true) = false
      rw [hcne, Bool.false_and]
  rw [jsParseInt, if_neg (by rw [hstart]; exact Bool.false_ne_true)]
  rw [parseNatHead_natRepr n]
  rfl

/-- Splitting a generated browse payload on the underscore isolates the
decimal offset. -/
theorem splitOn_browse (l : Str) (hl : ∀ c ∈ l, ¬((c == '_') = true)) :
    (str "browse_" ++ l).splitOn '_' = [str "browse", l] := by
  have heq : str "browse_" ++ l = str "browse" ++ '_' :: l := rfl
  rw [heq]
  show List.splitOnP (· == '_') (str "browse" ++ '_' :: l) = _
  rw [List.splitOnP_first (· == '_') (str "browse") (by decide) '_' (by decide),
      List.splitOnP_eq_single (· == '_') l hl]

/-- The callback handler on a generated browse payload: it reaches the
`browse_` branch, parses the offset back, stores it in `browseOffset` and
re-renders the idea page at that offset. -/
theorem handleCallback_browse (env : Env) (s : UserState) (m : Nat) :
    handleCallback env s (str "browse_" ++ natRepr m)
      = ({ s with browseOffset := some ((m : Nat) : Int) },
         [Effect.getProfile, Effect.answerCb none] ++ showIdeasEffects env m) := by
  obtain ⟨hne, hdig, hval⟩ := natRepr_spec m
  have hhead : ∀ (t : String), (str t).head? ≠ some 'b' →
      str "browse_" ++ natRepr m ≠ str t := by
    intro t h he
    apply h
    rw [← he]
    rfl
  have h1 := hhead "menu_main" (by decide)
  have h2 := hhead "menu_ideas" (by decide)
  have h3 := hhead "menu_search" (by decide)
  have h4 := hhead "menu_stats" (by decide)
  have h5 := hhead "menu_settings" (by decide)
  have h6 := hhead "menu_help" (by decide)
  have h7 := hhead "settings_pause" (by decide)
  have h8 := hhead "settings_confirm" (by decide)
  have hb : strStarts (str "browse_" ++ natRepr m) (str "browse_") = true := by
    show (((str "browse_" ++ natRepr m).take (str "browse_").length == str "browse_")) = true
    rw [List.take_left]
    exact beq_self_eq_true _
  have hsplit : ((str "browse_" ++ natRepr m).splitOn '_') = [str "browse", natRepr m] := by
    refine splitOn_browse _ (fun c hc => ?_)
    have := hdig c hc
    simp only [beq_iff_eq]
    intro he
    rw [he] at this
    exact absurd this (by decide)
  have hparse : jsParseInt (((str "browse_" ++ natRepr m).splitOn '_').getD 1 [])
      = some ((m : Nat) : Int) := by
    rw [hsplit]
    exact jsParseInt_natRepr m
  simp only [handleCallback, if_neg h1, if_neg h2, if_neg h3, if_neg h4, if_neg h5,
    if_neg h6, if_neg h7, if_neg h8, hb, if_pos, hparse]
  simp [Int.toNat_natCast]

/-- C7: for every browse render at offset O with page size 5, the Next
affordance appears iff a full page of 5 records was fetched and O+5 is below
the user's non-archived total; the Prev affordance appears iff O > 0; a full
page is fetched iff O+5 ≤ total; the rendered keyboard is attached to the
idea-page edit; the Prev payload for a reachable offset encodes O-5 and the
Next payload encodes O+5; and pressing a generated browse payload sets
browseOffset to exactly that number and re-renders the page there. -/
theorem claim_C7_pagination (env : Env) (s : UserState) (offset m : Nat) :
    ((str "Next »", str "browse_" ++ natRepr (offset + 5))
        ∈ browseKb (getAllIdeas env.db 5 offset).length offset (totalIdeas env.db)
      ↔ ((getAllIdeas env.db 5 offset).length = 5 ∧ offset + 5 < totalIdeas env.db)) ∧
    ((∃ pl, (str "« Prev", pl)
        ∈ browseKb (getAllIdeas env.db 5 offset).length offset (totalIdeas env.db))
      ↔ 0 < offset) ∧
    (0 < offset →
      (str "« Prev", str "browse_" ++ intRepr ((offset : Int) - 5))
        ∈ browseKb (getAllIdeas env.db 5 offset).length offset (totalIdeas env.db)) ∧
    ((getAllIdeas env.db 5 offset).length = 5 ↔ offset + 5 ≤ totalIdeas env.db) ∧
    (¬((getAllIdeas env.db 5 offset).length = 0 ∧ offset = 0) →
      Effect.editCurKb
          (myIdeasText env (getAllIdeas env.db 5 offset) offset (totalIdeas env.db))
          (browseKb (getAllIdeas env.db 5 offset).length offset (totalIdeas env.db))
        ∈ showIdeasEffects env offset) ∧
    (5 ≤ offset →
      str "browse_" ++ intRepr ((offset : Int) - 5)
        = str "browse_" ++ natRepr (offset - 5)) ∧
    (handleCallback env s (str "browse_" ++ natRepr m)
      = ({ s with browseOffset := some ((m : Nat) : Int) },
         [Effect.getProfile, Effect.answerCb none] ++ showIdeasEffects env m)) := by
  refine ⟨?_, ?_, ?_, ?_, ?_, ?_, handleCallback_browse env s m⟩
  · by_cases hn : (getAllIdeas env.db 5 offset).length = 5 ∧ offset + 5 < totalIdeas env.db <;>
      by_cases hp : 0 < offset <;>
        simp +decide [browseKb, hn, hp]
  · by_cases hn : (getAllIdeas env.db 5 offset).length = 5 ∧ offset + 5 < totalIdeas env.db <;>
      by_cases hp : 0 < offset <;>
        simp +decide [browseKb, hn, hp]
  · intro hp
    by_cases hn : (getAllIdeas env.db 5 offset).length = 5 ∧ offset + 5 < totalIdeas env.db <;>
      simp +decide [browseKb, hn, hp]
  · simp [getAllIdeas, totalIdeas]
    omega
  · intro h
    have h' : ¬(getAllIdeas env.db 5 offset = [] ∧ offset = 0) := by
      intro hc
      exact h ⟨by rw [hc.1]; rfl, hc.2⟩
    simp [showIdeasEffects, h']
  · intro h5
    rw [intRepr, if_neg (by omega)]
    have : ((offset : Int) - 5).toNat = offset - 5 := by omega
    rw [this]

/-- Witness for C7: seven ideas, first page; Next is offered with payload
browse_5, and pressing it moves the offset to exactly 5. -/
def wIdeaC7 : IdeaRec :=
  { id := str "w", created_at := str "d", category := str "C", transcript := str "t" }

def wEnv : Env := { db := List.replicate 7 wIdeaC7 }

theorem claim_C7_witness :
    ((str "Next »", str "browse_" ++ natRepr 5)
      ∈ browseKb (getAllIdeas wEnv.db 5 0).length 0 (totalIdeas wEnv.db)) ∧
    handleCallback wEnv {} (str "browse_" ++ natRepr 5)
      = ({ browseOffset := some ((5 : Nat) : Int) },
         [Effect.getProfile, Effect.answerCb none] ++ showIdeasEffects wEnv 5) := by
  have h := claim_C7_pagination wEnv {} 0 5
  exact ⟨h.1.mpr (by decide), h.2.2.2.2.2.2⟩

end IdeaFactory
